import Mathlib

/-!
Shallow embedding of the xdp-check diagnostic tool (Rust) and proofs about
its specification.  Each definition mirrors one item of the source:

* `CheckStatus`, `CheckResult`, `Report` — src/output.rs result model;
* kernel version / config / modules probes — src/kernel.rs;
* driver classification and the ethtool ring-parameter query — src/nic.rs;
* memory-lock limit classification — src/system.rs.

Effectful host access (filesystem reads, spawning the decompressor,
socket plus ioctl) is modelled by explicit environment records whose
fields give the outcome of each external operation; the probe bodies are
then literal translations of the Rust control flow over those fields.
Terminal colour wrappers from the colored crate are elided: they only
decorate the printed text and play no role in any claim.
-/

namespace XdpCheck

/-- Severity enumeration of src/output.rs (`enum CheckStatus`). -/
inductive CheckStatus where
  | Pass
  | Fail
  | Warning
  | Info
  | Error
  deriving DecidableEq, Repr

/-- `CheckStatus::is_failure`: `matches!(self, Fail | Error)`. -/
def CheckStatus.is_failure : CheckStatus → Bool
  | .Fail => true
  | .Error => true
  | _ => false

/-- `CheckStatus::to_icon` with the terminal colouring elided. -/
def CheckStatus.to_icon : CheckStatus → String
  | .Pass => "✓"
  | .Fail => "✗"
  | .Warning => "⚠"
  | .Info => "ℹ"
  | .Error => "!"

/-- One finding (`struct CheckResult` of src/output.rs). -/
structure CheckResult where
  name : String
  status : CheckStatus
  message : String
  details : Option String
  deriving DecidableEq, Repr

/--
`struct Report` of src/output.rs.  The Rust `HashMap<String, Vec<CheckResult>>`
is modelled as an association list with at most one entry per key
(`insertSection` replaces the value stored at an existing key, exactly like
`HashMap::insert`); `order` is the separately tracked insertion order.
-/
structure Report where
  sections : List (String × List CheckResult)
  order : List String
  deriving DecidableEq, Repr

/-- `HashMap::insert`: replace the value at an existing key, else append. -/
def insertSection (k : String) (v : List CheckResult) :
    List (String × List CheckResult) → List (String × List CheckResult)
  | [] => [(k, v)]
  | (k', v') :: rest =>
      if k' = k then (k, v) :: rest else (k', v') :: insertSection k v rest

/-- `HashMap::get`: the value stored at a key, if present. -/
def lookupSection (k : String) :
    List (String × List CheckResult) → Option (List CheckResult)
  | [] => none
  | (k', v') :: rest => if k' = k then some v' else lookupSection k rest

/-- `Report::new`. -/
def Report.new : Report := { sections := [], order := [] }

/-- `Report::add_section`: push the name on `order`, insert into the map. -/
def Report.add_section (r : Report) (name : String)
    (results : List CheckResult) : Report :=
  { order := r.order ++ [name],
    sections := insertSection name results r.sections }

/-- `Report::is_compatible`: no stored result has a failing severity. -/
def Report.is_compatible (r : Report) : Bool :=
  !((r.sections.map Prod.snd).flatten.any fun c => c.status.is_failure)

/-- A report built from a sequence of `add_section` calls on `Report::new`. -/
def buildReport (calls : List (String × List CheckResult)) : Report :=
  calls.foldl (fun r c => r.add_section c.1 c.2) Report.new

/-! String helpers mirroring the Rust `str` operations used by the tool.
Strings are handled through their character lists so that every operation
is a structural recursion the kernel can evaluate. -/

/-- Occurrence of `pat` as a contiguous run inside `s` (`str::contains`). -/
def listSub (pat : List Char) : List Char → Bool
  | [] => pat.isEmpty
  | c :: rest => pat.isPrefixOf (c :: rest) || listSub pat rest

/-- `str::contains` on whole strings. -/
def strContains (s pat : String) : Bool :=
  listSub pat.toList s.toList

/-- `str::ends_with` on whole strings. -/
def strEndsWith (s suffix : String) : Bool :=
  suffix.toList.isSuffixOf s.toList

/-- `str::repeat`: `n` copies of `s` concatenated. -/
def strRepeat (s : String) (n : Nat) : String :=
  String.join (List.replicate n s)

/-- `str::split` on a character predicate, keeping empty segments, exactly
like Rust `split`: the result always has one more segment than there are
separator occurrences. -/
def splitOnP (p : Char → Bool) : List Char → List (List Char)
  | [] => [[]]
  | a :: rest =>
      if p a then [] :: splitOnP p rest
      else
        match splitOnP p rest with
        | [] => [[a]]
        | l :: ls => (a :: l) :: ls

/-- Strip one trailing carriage return, as Rust `str::lines` does. -/
def dropTrailingCR (l : List Char) : List Char :=
  if l.getLast? = some '\r' then l.dropLast else l

/-- Rust `str::lines`: split on newline, drop a final empty segment,
strip a trailing carriage return from each line. -/
def rustLines (s : String) : List String :=
  let segs := splitOnP (fun c => c = '\n') s.toList
  let segs := if segs.getLast? = some [] then segs.dropLast else segs
  segs.map fun l => String.mk (dropTrailingCR l)

/-! `Report::print_human` (src/output.rs lines 75-136), modelled as the list
of lines printed to the terminal, colours elided.  The Rust loop walks
`order` and renders the section stored in the map under each name; the
failure/warning flags for the summary banner are accumulated over exactly
the results visited by that loop. -/

/-- The `(name, results)` pairs visited by the `print_human` loop: each
name of `order` in turn, paired with the map entry when one exists. -/
def humanSections (r : Report) : List (String × List CheckResult) :=
  r.order.filterMap fun n =>
    (lookupSection n r.sections).map fun results => (n, results)

/-- The lines printed for one result: the icon line, then the detail lines
when details exist and are shown (always for Fail/Warning/Error, otherwise
only with the verbosity flag). -/
def renderResult (verbose : Bool) (result : CheckResult) : List String :=
  ("  " ++ result.status.to_icon ++ " " ++ result.name ++ " - "
      ++ result.message) ::
    match result.details with
    | some details =>
        if verbose
            || (match result.status with
                | .Fail | .Warning | .Error => true
                | _ => false) then
          (rustLines details).map fun line => "      " ++ line
        else []
    | none => []

/-- The lines printed for one visited section: a blank line, the name, an
underline of hyphens matching the byte length of the name, then each
result in stored order. -/
def sectionLines (verbose : Bool) (p : String × List CheckResult) :
    List String :=
  "" :: p.1 :: strRepeat "-" p.1.utf8ByteSize
    :: (p.2.flatMap (renderResult verbose))

/-- `has_failures` of the `print_human` loop. -/
def reportHasFailures (r : Report) : Bool :=
  (humanSections r).any fun p => p.2.any fun c => c.status.is_failure

/-- `has_warnings` of the `print_human` loop. -/
def reportHasWarnings (r : Report) : Bool :=
  (humanSections r).any fun p =>
    p.2.any fun c =>
      match c.status with
      | .Warning => true
      | _ => false

/-- The summary banner printed after the sections. -/
def summaryLines (has_failures has_warnings verbose : Bool) : List String :=
  ["", strRepeat "=" 50, "Summary", strRepeat "=" 50]
    ++ (if has_failures then
          ["❌ XDP compatibility check FAILED",
           "   Some critical requirements are not met.",
           "   Please address the issues marked with ✗ above."]
        else if has_warnings then
          ["⚠️  XDP compatibility check PASSED with warnings",
           "   System supports XDP but some optimizations are missing.",
           "   Review warnings marked with ⚠ for better performance."]
        else
          ["✅ XDP compatibility check PASSED",
           "   System is ready for XDP deployment!"])
    ++ (if !verbose && (has_failures || has_warnings) then
          ["", "💡 Run with --verbose for detailed information"]
        else [])

/-- `Report::print_human`: every line printed, in order. -/
def Report.print_human (r : Report) (verbose : Bool) : List String :=
  ((humanSections r).flatMap (sectionLines verbose))
    ++ summaryLines (reportHasFailures r) (reportHasWarnings r) verbose

/-! Kernel probe, src/kernel.rs. -/

/-- `MIN_KERNEL_VERSION`: below this pair the check fails. -/
def MIN_KERNEL_VERSION : Nat × Nat := (4, 18)

/-- `RECOMMENDED_KERNEL_VERSION`. -/
def RECOMMENDED_KERNEL_VERSION : Nat × Nat := (6, 10)

/-- Largest `u32` value; `u32::from_str` rejects anything above it. -/
def U32_MAX : Nat := 4294967295

/-- Rust `u32::from_str`: an optional leading plus sign, then one or more
ASCII digits, value within the `u32` range; anything else is an error. -/
def parseU32 (s : List Char) : Option Nat :=
  let digits := match s with
    | '+' :: rest => rest
    | _ => s
  if digits.isEmpty then none
  else if digits.all (fun c => c.isDigit) then
    let v := digits.foldl (fun acc c => acc * 10 + (c.toNat - 48)) 0
    if v ≤ U32_MAX then some v else none
  else none

/-- `parts[i].parse::<u32>().unwrap_or(0)`. -/
def parseU32OrZero (s : List Char) : Nat :=
  (parseU32 s).getD 0

/-- The three-way status computation of `check_kernel_version`
(src/kernel.rs lines 50-60), on an already parsed `(major, minor)` pair. -/
def kernelVersionStatus (major minor : Nat) : CheckStatus :=
  if major > MIN_KERNEL_VERSION.1
      ∨ (major = MIN_KERNEL_VERSION.1 ∧ minor ≥ MIN_KERNEL_VERSION.2) then
    if major > RECOMMENDED_KERNEL_VERSION.1
        ∨ (major = RECOMMENDED_KERNEL_VERSION.1
            ∧ minor ≥ RECOMMENDED_KERNEL_VERSION.2) then
      CheckStatus.Pass
    else
      CheckStatus.Warning
  else
    CheckStatus.Fail

/-- The separator set of `release.split(&['.', '-'][..])`. -/
def dotDash (c : Char) : Bool := c = '.' || c = '-'

/-- `check_kernel_version` (src/kernel.rs lines 32-85) as a function of the
release string reported by `uname` (the only effect the Rust function has;
its sole error path is a failing `uname`, which is outside this model). -/
def checkKernelVersion (release : String) : CheckResult :=
  let parts := splitOnP dotDash release.toList
  if parts.length < 2 then
    { name := "Kernel Version"
      status := CheckStatus.Error
      message := "Unable to parse kernel version: " ++ release
      details := none }
  else
    let major := parseU32OrZero (parts.getD 0 [])
    let minor := parseU32OrZero (parts.getD 1 [])
    let status := kernelVersionStatus major minor
    { name := "Kernel Version"
      status := status
      message := "Kernel version: " ++ release ++ " ("
        ++ toString major ++ "." ++ toString minor ++ ")"
      details :=
        match status with
        | .Pass => some ("Kernel " ++ toString major ++ "." ++ toString minor
            ++ " meets recommended version 6.10 for stable AF_XDP support")
        | .Warning => some ("Kernel " ++ toString major ++ "." ++ toString minor
            ++ " supports AF_XDP but 6.10+ is recommended for better stability")
        | .Fail => some ("Kernel " ++ toString major ++ "." ++ toString minor
            ++ " is too old. Minimum required: 4.18")
        | _ => none }

/-- Captured output of a spawned child process (`std::process::Output`). -/
structure CmdOutput where
  success : Bool
  stdout : String

/-- Outcome of every host interaction the kernel probe performs: the uname
release string, file existence, file reads (`none` is a read error), and
spawning the `zcat` decompressor (`none` is a spawn error, `some` carries
the exit success flag and captured stdout). -/
structure KernelEnv where
  release : String
  pathExists : String → Bool
  read_to_string : String → Option String
  zcat : String → Option CmdOutput

/-- The candidate kernel-config locations, in trial order. -/
def config_paths (env : KernelEnv) : List String :=
  ["/boot/config-" ++ env.release, "/proc/config.gz", "/boot/config"]

/-- The config-discovery loop of `check_kernel_config` (src/kernel.rs lines
100-126): first existing readable candidate wins; a `.gz` candidate is
decompressed through `zcat`, whose spawn failure is propagated with `?`
while a non-zero exit merely falls through to the next candidate; a plain
read error also falls through. -/
def findKernelConfig (env : KernelEnv) :
    List String → Except String (Option (String × String))
  | [] => Except.ok none
  | path :: rest =>
      if env.pathExists path then
        if strEndsWith path ".gz" then
          match env.zcat path with
          | none => Except.error "Failed to decompress kernel config"
          | some out =>
              if out.success then Except.ok (some (out.stdout, path))
              else findKernelConfig env rest
        else
          match env.read_to_string path with
          | some content => Except.ok (some (content, path))
          | none => findKernelConfig env rest
      else findKernelConfig env rest

/-- `required_options` of `check_kernel_config`. -/
def required_options : List (String × String) :=
  [("CONFIG_XDP_SOCKETS", "AF_XDP socket support"),
   ("CONFIG_BPF", "BPF subsystem"),
   ("CONFIG_BPF_SYSCALL", "BPF system call"),
   ("CONFIG_NET", "Networking support")]

/-- `optional_options` of `check_kernel_config`. -/
def optional_options : List (String × String) :=
  [("CONFIG_DEBUG_INFO_BTF", "BTF type information"),
   ("CONFIG_NETLINK", "Netlink support for routing")]

/-- A config flag counts as enabled when assigned `y` or `m`. -/
def optionEnabled (config opt : String) : Bool :=
  strContains config (opt ++ "=y") || strContains config (opt ++ "=m")

/-- The per-required-option results of `check_kernel_config`. -/
def requiredOptionResults (config source : String) : List CheckResult :=
  required_options.map fun p =>
    let enabled := optionEnabled config p.1
    { name := p.1
      status := if enabled then CheckStatus.Pass else CheckStatus.Fail
      message := p.2
      details := some (if enabled then "Enabled in " ++ source
        else "Not found or disabled in " ++ source ++ ". Required for XDP.") }

/-- The per-optional-option results of `check_kernel_config`. -/
def optionalOptionResults (config source : String) : List CheckResult :=
  optional_options.map fun p =>
    let enabled := optionEnabled config p.1
    { name := p.1
      status := if enabled then CheckStatus.Pass else CheckStatus.Warning
      message := p.2
      details := some (if enabled then "Enabled in " ++ source
        else "Not enabled in " ++ source
          ++ ". Recommended for better XDP support.") }

/-- `check_kernel_config` (src/kernel.rs lines 87-188). -/
def check_kernel_config (env : KernelEnv) :
    Except String (List CheckResult) :=
  match findKernelConfig env (config_paths env) with
  | Except.error e => Except.error e
  | Except.ok none =>
      Except.ok [{ name := "Kernel Config"
                   status := CheckStatus.Warning
                   message := "Unable to find kernel configuration file"
                   details := some ("Cannot verify XDP-related kernel "
                     ++ "options. They might still be enabled.") }]
  | Except.ok (some (config, source)) =>
      Except.ok (requiredOptionResults config source
        ++ optionalOptionResults config source)

/-- `check_btf_support` (src/kernel.rs lines 190-208). -/
def check_btf_support (env : KernelEnv) : CheckResult :=
  if env.pathExists "/sys/kernel/btf/vmlinux" then
    { name := "BTF Support"
      status := CheckStatus.Pass
      message := "BTF type information available"
      details := some "Found at /sys/kernel/btf/vmlinux" }
  else
    { name := "BTF Support"
      status := CheckStatus.Warning
      message := "BTF type information not found"
      details := some ("BTF improves eBPF program compatibility "
        ++ "but is not strictly required") }

/-- `check_kernel_modules` (src/kernel.rs lines 210-236): a read error on
/proc/modules is propagated with `?`. -/
def check_kernel_modules (env : KernelEnv) :
    Except String (List CheckResult) :=
  match env.read_to_string "/proc/modules" with
  | none => Except.error "Failed to read /proc/modules"
  | some modules_file =>
      let xsk_loaded := strContains modules_file "xsk"
      Except.ok [{ name := "XSK Module"
                   status := if xsk_loaded then CheckStatus.Pass
                     else CheckStatus.Info
                   message := if xsk_loaded then
                       "XSK diagnostic module loaded"
                     else "XSK diagnostic module not loaded"
                   details := some (if xsk_loaded then
                       "Module is loaded for AF_XDP socket diagnostics"
                     else "Optional module for AF_XDP diagnostics. "
                       ++ "Core functionality still works.") }]

/-- `check_kernel_compatibility` (src/kernel.rs lines 13-25): version,
config, BTF and modules results in order, with the config and modules
errors propagated via `?`. -/
def check_kernel_compatibility (env : KernelEnv) :
    Except String (List CheckResult) :=
  match check_kernel_config env with
  | Except.error e => Except.error e
  | Except.ok cfg =>
      match check_kernel_modules env with
      | Except.error e => Except.error e
      | Except.ok mods =>
          Except.ok ([checkKernelVersion env.release]
            ++ cfg ++ [check_btf_support env] ++ mods)

/-! Interface probe, src/nic.rs. -/

/-- `GOOD_DRIVERS`: known XDP-capable drivers (src/nic.rs lines 11-25;
the commented-out entries of the source are omitted here as they are in
the compiled list). -/
def GOOD_DRIVERS : List String :=
  ["i40e", "ixgbe", "ice", "igb", "igc",
   "mlx5_core", "mlx4_core", "nfp", "bnxt_en"]

/-- `PROBLEMATIC_DRIVERS`: drivers with documented caveats
(src/nic.rs lines 28-32). -/
def PROBLEMATIC_DRIVERS : List (String × String) :=
  [("i40e",
    "multi-fragment packet bugs - requires workaround in slowgave XDP")]

/-- The driver status computation of `check_interface_internal`
(src/nic.rs lines 155-163). -/
def driverCheckStatus (driver : String) : CheckStatus :=
  if GOOD_DRIVERS.contains driver then
    if driver = "i40e" then CheckStatus.Warning else CheckStatus.Pass
  else CheckStatus.Warning

/-- The driver details computation of `check_interface_internal`
(src/nic.rs lines 165-172): start from `Driver: <name>`, overwrite with
the first matching caveat entry. -/
def driverCheckDetails (driver : String) : String :=
  match PROBLEMATIC_DRIVERS.find? (fun p => driver == p.1) with
  | some p => "Driver: " ++ driver ++ " - KNOWN ISSUE: " ++ p.2
  | none => "Driver: " ++ driver

/-- The driver check result pushed by `check_interface_internal`
(src/nic.rs lines 174-179). -/
def driverCheckResult (interface driver : String) : CheckResult :=
  { name := interface ++ ": Driver"
    status := driverCheckStatus driver
    message := "Network driver: " ++ driver
    details := some (driverCheckDetails driver) }

/-! Device control primitive, src/nic.rs lines 34-48 and 360-391. -/

/-- `ETHTOOL_GRINGPARAM`: the get-ring-parameters op-code. -/
def ETHTOOL_GRINGPARAM : Nat := 0x00000010

/-- `IF_NAMESIZE` on Linux. -/
def IF_NAMESIZE : Nat := 16

/-- `struct EthtoolRingParam` (`#[repr(C)]`, src/nic.rs lines 35-46); the
byte layout itself is a platform fact outside a shallow embedding, but the
fields and their roles are modelled one-for-one. -/
structure EthtoolRingParam where
  cmd : Nat
  rx_max_pending : Nat
  rx_mini_max_pending : Nat
  rx_jumbo_max_pending : Nat
  tx_max_pending : Nat
  rx_pending : Nat
  rx_mini_pending : Nat
  rx_jumbo_pending : Nat
  tx_pending : Nat
  deriving DecidableEq, Repr

/-- `mem::zeroed()` for the ring-parameter record. -/
def EthtoolRingParam.zeroed : EthtoolRingParam :=
  { cmd := 0, rx_max_pending := 0, rx_mini_max_pending := 0,
    rx_jumbo_max_pending := 0, tx_max_pending := 0, rx_pending := 0,
    rx_mini_pending := 0, rx_jumbo_pending := 0, tx_pending := 0 }

/-- Outcome of the two system calls `ring_parameters_ethtool` performs:
socket creation (`none` models a negative file descriptor), and the
SIOCETHTOOL ioctl, which given the truncated interface name and the
request record yields a result code and the kernel-populated record. -/
structure NetEnv where
  socket_fd : Option Nat
  ioctl_ret : List Char → EthtoolRingParam → Int
  ioctl_populate : List Char → EthtoolRingParam → EthtoolRingParam

/-- The interface name as placed in `ifr_name`: truncated to
`IF_NAMESIZE - 1` bytes and null-terminated. -/
def ifrName (interface : String) : List Char :=
  interface.toList.take (IF_NAMESIZE - 1)

/-- The request record as built before the ioctl: zeroed except for the
command field. -/
def ethtoolRequest : EthtoolRingParam :=
  { EthtoolRingParam.zeroed with cmd := ETHTOOL_GRINGPARAM }

/-- `ring_parameters_ethtool` (src/nic.rs lines 361-391): socket failure
is an error; a negative ioctl result code is an error; on success the RX
and TX pending counts of the populated record are returned. -/
def ring_parameters_ethtool (env : NetEnv) (interface : String) :
    Except String (Nat × Nat) :=
  match env.socket_fd with
  | none => Except.error "Failed to create socket"
  | some _ =>
      let ring_param := ethtoolRequest
      let name := ifrName interface
      let res := env.ioctl_ret name ring_param
      if res < 0 then Except.error "ethtool ioctl failed"
      else
        Except.ok ((env.ioctl_populate name ring_param).rx_pending,
                   (env.ioctl_populate name ring_param).tx_pending)

/-! Resource probe, src/system.rs. -/

/-- `RLIM_INFINITY` on Linux (`u64::MAX`), the unlimited sentinel. -/
def RLIM_INFINITY : Nat := 18446744073709551615

/-- `check_memlock_limit` (src/system.rs lines 70-106) as a function of
the current and maximum locked-memory limits returned by `getrlimit`. -/
def check_memlock_limit (rlim_cur rlim_max : Nat) : CheckResult :=
  let cur_limit_mb := rlim_cur / (1024 * 1024)
  let max_limit_mb := rlim_max / (1024 * 1024)
  let status :=
    if rlim_cur = RLIM_INFINITY ∨ cur_limit_mb ≥ 512 then CheckStatus.Pass
    else if cur_limit_mb ≥ 64 then CheckStatus.Warning
    else CheckStatus.Fail
  { name := "Memory Lock Limit"
    status := status
    message := if rlim_cur = RLIM_INFINITY then "Unlimited memory lock"
      else "Current: " ++ toString cur_limit_mb ++ " MB, Max: "
        ++ (if rlim_max = RLIM_INFINITY then "unlimited"
            else toString max_limit_mb) ++ " MB"
    details :=
      match status with
      | .Pass => some "Sufficient memory lock limit for XDP"
      | .Warning => some ("Memory lock limit may be insufficient for large "
          ++ "XDP deployments. Consider increasing with ulimit.")
      | .Fail => some ("Memory lock limit too low for XDP. Increase with "
          ++ "ulimit or edit /etc/security/limits.conf.")
      | _ => none }

/-! Shared helper lemmas about the Report model. -/

/-- A severity is non-failing exactly when it is neither Fail nor Error. -/
theorem is_failure_eq_false_iff (s : CheckStatus) :
    s.is_failure = false ↔ ¬(s = CheckStatus.Fail ∨ s = CheckStatus.Error) := by
  cases s <;> simp [CheckStatus.is_failure]

/-- The inserted pair is stored in the map. -/
theorem mem_insertSection_self (k : String) (v : List CheckResult)
    (l : List (String × List CheckResult)) : (k, v) ∈ insertSection k v l := by
  induction l with
  | nil => simp [insertSection]
  | cons p rest ih =>
      obtain ⟨k', v'⟩ := p
      by_cases h : k' = k <;> simp [insertSection, h, ih]

/-- Lookup after insert: the new value at the inserted key, the old value
elsewhere. -/
theorem lookup_insertSection (n k : String) (v : List CheckResult)
    (l : List (String × List CheckResult)) :
    lookupSection n (insertSection k v l) =
      if k = n then some v else lookupSection n l := by
  induction l with
  | nil => simp [insertSection, lookupSection]
  | cons p rest ih =>
      obtain ⟨k', v'⟩ := p
      by_cases h1 : k' = k <;> by_cases h2 : k = n <;>
        by_cases h3 : k' = n <;> simp_all [insertSection, lookupSection]

/-- `is_compatible` on an arbitrary report: true exactly when no stored
result is failing. -/
theorem is_compatible_spec (r : Report) :
    r.is_compatible = true ↔
      ∀ p ∈ r.sections, ∀ c ∈ p.2,
        ¬(c.status = CheckStatus.Fail ∨ c.status = CheckStatus.Error) := by
  rw [Report.is_compatible, Bool.not_eq_true', List.any_eq_false]
  simp only [Bool.not_eq_true]
  constructor
  · intro h p hp c hc
    rw [← is_failure_eq_false_iff]
    exact h c (List.mem_flatten.mpr ⟨p.2, List.mem_map.mpr ⟨p, hp, rfl⟩, hc⟩)
  · intro h c hc
    rw [is_failure_eq_false_iff]
    obtain ⟨l, hl, hcl⟩ := List.mem_flatten.mp hc
    obtain ⟨p, hp, hpl⟩ := List.mem_map.mp hl
    exact h p hp c (hpl ▸ hcl)

/-- Demonstration results reused by several witnesses. -/
def demoFail : CheckResult :=
  { name := "CONFIG_BPF", status := CheckStatus.Fail,
    message := "BPF subsystem", details := none }

/-- A passing demonstration result. -/
def demoPass : CheckResult :=
  { name := "BTF Support", status := CheckStatus.Pass,
    message := "BTF type information available", details := none }

/-- A warning demonstration result. -/
def demoWarn : CheckResult :=
  { name := "Kernel Version", status := CheckStatus.Warning,
    message := "Kernel version: 5.15.0-89-generic (5.15)", details := none }

/-- Claim C1: for every report built by `add_section` calls,
`is_compatible` is true iff no stored check result has status Fail or
Error, and adding one section that contains a Fail result anywhere makes
`is_compatible` false, whatever the section name. -/
theorem is_compatible_iff_no_failure
    (calls : List (String × List CheckResult)) :
    ((buildReport calls).is_compatible = true ↔
      ∀ p ∈ (buildReport calls).sections, ∀ c ∈ p.2,
        ¬(c.status = CheckStatus.Fail ∨ c.status = CheckStatus.Error)) ∧
    (∀ name results c, c ∈ results → c.status = CheckStatus.Fail →
      ((buildReport calls).add_section name results).is_compatible = false) := by
  refine ⟨is_compatible_spec (buildReport calls), ?_⟩
  intro name results c hc hstat
  rw [Report.is_compatible, Bool.not_eq_false', List.any_eq_true]
  refine ⟨c, ?_, by simp [hstat, CheckStatus.is_failure]⟩
  refine List.mem_flatten.mpr ⟨results, List.mem_map.mpr ⟨(name, results), ?_, rfl⟩, hc⟩
  exact mem_insertSection_self name results (buildReport calls).sections

/-- Witness for C1: one Fail result in a freshly added section renders a
concrete report incompatible. -/
theorem is_compatible_iff_no_failure_witness :
    ((buildReport [("Kernel", [demoPass])]).add_section
        "NIC" [demoFail]).is_compatible = false :=
  (is_compatible_iff_no_failure [("Kernel", [demoPass])]).2
    "NIC" [demoFail] demoFail (by simp) rfl

/-- Claim C7: `add_section` stores the new results at the given name
(overwriting any prior content there), appends the name to the insertion
order without removing earlier occurrences, and leaves the content of
every other name unchanged. -/
theorem add_section_frame (r : Report) (name : String)
    (results : List CheckResult) :
    lookupSection name (r.add_section name results).sections = some results ∧
    (r.add_section name results).order = r.order ++ [name] ∧
    (∀ n, n ≠ name →
      lookupSection n (r.add_section name results).sections =
        lookupSection n r.sections) := by
  refine ⟨?_, rfl, ?_⟩
  · rw [Report.add_section, lookup_insertSection, if_pos rfl]
  · intro n hn
    rw [Report.add_section, lookup_insertSection, if_neg (fun h => hn h.symm)]

/-- Witness for C7: overwriting one section of a concrete report leaves a
different section unchanged. -/
theorem add_section_frame_witness :
    lookupSection "Kernel"
        (((Report.new.add_section "Kernel" [demoWarn]).add_section
            "NIC" [demoPass]).add_section "NIC" []).sections
      = some [demoWarn] :=
  (((add_section_frame
      ((Report.new.add_section "Kernel" [demoWarn]).add_section
        "NIC" [demoPass]) "NIC" []).2.2 "Kernel" (by decide)).trans rfl)

/-- Claim C10: a freshly constructed report holds no sections, satisfies
`is_compatible`, and its human rendering is just the summary block with
the fully-passed banner. -/
theorem empty_report_compatible (verbose : Bool) :
    Report.new.sections = [] ∧
    Report.new.is_compatible = true ∧
    Report.new.print_human verbose =
      ["", strRepeat "=" 50, "Summary", strRepeat "=" 50,
       "✅ XDP compatibility check PASSED",
       "   System is ready for XDP deployment!"] := by
  cases verbose <;> exact ⟨rfl, rfl, rfl⟩

/-! Claims about the kernel version classification. -/

/-- Severity rank used to state monotonicity of the version check: Fail
below Warning below Pass (the classifier emits only those three; Error
and Info are ranked with their binary-partition peers). -/
def statusRank : CheckStatus → Nat
  | .Fail => 0
  | .Error => 0
  | .Warning => 1
  | .Info => 1
  | .Pass => 2

/-- Unfolded form of the classifier with the two thresholds inserted. -/
theorem kernelVersionStatus_eq (major minor : Nat) :
    kernelVersionStatus major minor =
      if major > 4 ∨ (major = 4 ∧ minor ≥ 18) then
        if major > 6 ∨ (major = 6 ∧ minor ≥ 10) then CheckStatus.Pass
        else CheckStatus.Warning
      else CheckStatus.Fail := rfl

/-- Claim C2: the three-way kernel version classification is monotonic:
raising the major or the minor number never lowers the status rank. -/
theorem kernel_version_monotone (M m M' m' : Nat)
    (hM : M ≤ M') (hm : m ≤ m') :
    statusRank (kernelVersionStatus M m) ≤
      statusRank (kernelVersionStatus M' m') := by
  rw [kernelVersionStatus_eq, kernelVersionStatus_eq]
  split_ifs <;> simp [statusRank] <;> omega

/-- Witness for C2: from the Warning pair (5, 15) raising both numbers to
the Pass pair (6, 15) does not lower the rank. -/
theorem kernel_version_monotone_witness :
    statusRank (kernelVersionStatus 5 15) ≤
      statusRank (kernelVersionStatus 6 15) :=
  kernel_version_monotone 5 15 6 15 (by decide) (by decide)

/-- Counterexample for C4: the release string `ab-cd` splits into the two
non-numeric components `ab` and `cd`; `check_kernel_version` parses each
with `unwrap_or(0)` and classifies the pair (0, 0), producing status Fail,
not the Error result the claim demands. -/
theorem kernel_version_nonnumeric_counterexample :
    (checkKernelVersion "ab-cd").status = CheckStatus.Fail ∧
    ¬(checkKernelVersion "ab-cd").status = CheckStatus.Error := by
  constructor <;> decide

/-- Claim C4, amended: a release string with fewer than two separated
components yields an Error result, while a release string whose first two
components are non-numeric parses them as zero and yields a Fail result
(the pair (0, 0) is below the minimum version), not an Error. -/
theorem kernel_version_parse (release : String) :
    ((splitOnP dotDash release.toList).length < 2 →
      (checkKernelVersion release).status = CheckStatus.Error) ∧
    (∀ p0 p1 rest, splitOnP dotDash release.toList = p0 :: p1 :: rest →
      parseU32 p0 = none → parseU32 p1 = none →
      (checkKernelVersion release).status = CheckStatus.Fail) := by
  constructor
  · intro h
    rw [checkKernelVersion, if_pos h]
  · intro p0 p1 rest hsplit h0 h1
    rw [checkKernelVersion, hsplit]
    rw [if_neg (by simp)]
    simp [parseU32OrZero, h0, h1, kernelVersionStatus_eq]

/-- Witness for C4: the fallback release string `unknown` has a single
component and is classified Error, while `ab-cd` is classified Fail. -/
theorem kernel_version_parse_witness :
    (checkKernelVersion "unknown").status = CheckStatus.Error ∧
    (checkKernelVersion "ab-cd").status = CheckStatus.Fail :=
  ⟨(kernel_version_parse "unknown").1 (by decide),
   (kernel_version_parse "ab-cd").2 ['a', 'b'] ['c', 'd'] []
     (by decide) (by decide) (by decide)⟩

/-! Claim about the memory-lock classification. -/

/-- Claim C8: the locked-memory limit is classified Pass at the unlimited
sentinel or at 512 MB and above, Warning from 64 MB up to but excluding
512 MB, and Fail below 64 MB. -/
theorem memlock_classification (rlim_cur rlim_max : Nat)
    (h64 : rlim_cur < 2 ^ 64) :
    ((rlim_cur = RLIM_INFINITY ∨ 512 * 1024 * 1024 ≤ rlim_cur) →
      (check_memlock_limit rlim_cur rlim_max).status = CheckStatus.Pass) ∧
    ((64 * 1024 * 1024 ≤ rlim_cur ∧ rlim_cur < 512 * 1024 * 1024) →
      (check_memlock_limit rlim_cur rlim_max).status = CheckStatus.Warning) ∧
    (rlim_cur < 64 * 1024 * 1024 →
      (check_memlock_limit rlim_cur rlim_max).status = CheckStatus.Fail) := by
  simp only [check_memlock_limit, RLIM_INFINITY]
  refine ⟨fun h => ?_, fun h => ?_, fun h => ?_⟩ <;>
    split_ifs with h1 h2 <;> simp_all <;> omega

/-- Witness for C8: exactly 512 MB is classified Pass. -/
theorem memlock_classification_witness :
    (check_memlock_limit (512 * 1024 * 1024) (512 * 1024 * 1024)).status =
      CheckStatus.Pass :=
  (memlock_classification (512 * 1024 * 1024) (512 * 1024 * 1024)
      (by norm_num)).1 (Or.inr (by norm_num))

/-! Claim about the driver classification. -/

/-- Claim C5: the driver `i40e` (capable list and caveats list) is
classified Warning and its details carry the non-empty caveat note;
`mlx5_core` (capable only) is classified Pass; `e1000e` (in neither list)
is classified Warning with no caveat note in its details. -/
theorem driver_classification (interface : String) :
    (driverCheckResult interface "i40e").status = CheckStatus.Warning ∧
    (driverCheckResult interface "i40e").details =
      some (driverCheckDetails "i40e") ∧
    driverCheckDetails "i40e" =
      "Driver: i40e - KNOWN ISSUE: multi-fragment packet bugs"
        ++ " - requires workaround in slowgave XDP" ∧
    strContains (driverCheckDetails "i40e") "KNOWN ISSUE" = true ∧
    (driverCheckResult interface "mlx5_core").status = CheckStatus.Pass ∧
    (driverCheckResult interface "e1000e").status = CheckStatus.Warning ∧
    (driverCheckResult interface "e1000e").details =
      some (driverCheckDetails "e1000e") ∧
    driverCheckDetails "e1000e" = "Driver: e1000e" ∧
    strContains (driverCheckDetails "e1000e") "KNOWN ISSUE" = false := by
  exact ⟨rfl, rfl, by decide, by decide, rfl, rfl, rfl, by decide, by decide⟩

/-! Claim about the ethtool ring-parameter query. -/

/-- Claim C9: the ring-parameter query errors whenever socket creation
fails or the ioctl reports failure (its result code is 0 on success and
-1 on failure, so non-zero means failure), and on success returns exactly
the RX and TX pending counts of the kernel-populated record; the request
record it hands to the kernel has the get-ring-parameters op-code in its
command field and every other field zero.  The embedding is a total
function, so no panic is possible, and the error branches return no
record at all. -/
theorem ring_parameters_ethtool_spec (env : NetEnv) (interface : String)
    (hioctl : ∀ nm rp, env.ioctl_ret nm rp = 0 ∨ env.ioctl_ret nm rp = -1) :
    (ethtoolRequest.cmd = ETHTOOL_GRINGPARAM ∧
      ethtoolRequest.rx_max_pending = 0 ∧
      ethtoolRequest.rx_mini_max_pending = 0 ∧
      ethtoolRequest.rx_jumbo_max_pending = 0 ∧
      ethtoolRequest.tx_max_pending = 0 ∧
      ethtoolRequest.rx_pending = 0 ∧
      ethtoolRequest.rx_mini_pending = 0 ∧
      ethtoolRequest.rx_jumbo_pending = 0 ∧
      ethtoolRequest.tx_pending = 0) ∧
    (env.socket_fd = none →
      ring_parameters_ethtool env interface =
        Except.error "Failed to create socket") ∧
    (env.ioctl_ret (ifrName interface) ethtoolRequest ≠ 0 →
      ∀ counts, ring_parameters_ethtool env interface ≠ Except.ok counts) ∧
    (env.socket_fd ≠ none →
      env.ioctl_ret (ifrName interface) ethtoolRequest = 0 →
      ring_parameters_ethtool env interface =
        Except.ok
          ((env.ioctl_populate (ifrName interface) ethtoolRequest).rx_pending,
           (env.ioctl_populate (ifrName interface) ethtoolRequest).tx_pending)) := by
  refine ⟨⟨rfl, rfl, rfl, rfl, rfl, rfl, rfl, rfl, rfl⟩, ?_, ?_, ?_⟩
  · intro h
    rw [ring_parameters_ethtool, h]
  · intro hret counts
    rcases hfd : env.socket_fd with _ | fd
    · rw [ring_parameters_ethtool, hfd]
      exact fun h => Except.noConfusion h
    · rw [ring_parameters_ethtool, hfd]
      rcases hioctl (ifrName interface) ethtoolRequest with h0 | h1
      · exact absurd h0 hret
      · simp only [h1]
        rw [if_pos (by norm_num)]
        exact fun h => Except.noConfusion h
  · intro hfd hret
    rcases h : env.socket_fd with _ | fd
    · exact absurd h hfd
    · rw [ring_parameters_ethtool, h]
      simp only [hret]
      rw [if_neg (by norm_num)]

/-- A host environment whose socket and ioctl both succeed, populating
the ring record with 256 RX and 512 TX pending descriptors. -/
def demoNetEnv : NetEnv :=
  { socket_fd := some 3
    ioctl_ret := fun _ _ => 0
    ioctl_populate := fun _ rp => { rp with rx_pending := 256, tx_pending := 512 } }

/-- Witness for C9 on a concrete succeeding environment. -/
theorem ring_parameters_ethtool_spec_witness :
    ring_parameters_ethtool demoNetEnv "eth0" = Except.ok (256, 512) :=
  ((ring_parameters_ethtool_spec demoNetEnv "eth0"
      (fun _ _ => Or.inl rfl)).2.2.2 (by simp [demoNetEnv]) rfl).trans rfl

/-! Claim about error handling of optional kernel data. -/

/-- A host where only /proc/config.gz exists among the config candidates
and spawning the zcat decompressor fails (binary absent), while
/proc/modules reads fine. -/
def zcatFailEnv : KernelEnv :=
  { release := "5.15.0-89-generic"
    pathExists := fun p => p == "/proc/config.gz"
    read_to_string := fun p =>
      if p == "/proc/modules" then some "xsk 16384 0 - Live" else none
    zcat := fun _ => none }

/-- A host with a readable /boot/config but an unreadable /proc/modules. -/
def modulesFailEnv : KernelEnv :=
  { release := "5.15.0-89-generic"
    pathExists := fun p => p == "/boot/config"
    read_to_string := fun p =>
      if p == "/boot/config" then some "CONFIG_BPF=y" else none
    zcat := fun _ => none }

/-- Counterexample for C3: `check_kernel_compatibility` does not absorb
these two auxiliary-data errors.  When the decompressor for
/proc/config.gz cannot be spawned the probe returns the error produced by
the `context(...)?` in `check_kernel_config`, and when /proc/modules
cannot be read it returns the error produced by the `context(...)?` in
`check_kernel_modules` — in both cases an Err, not the Ok with degraded
results the claim demands. -/
theorem kernel_errors_counterexample :
    (check_kernel_compatibility zcatFailEnv).isOk = false ∧
    check_kernel_compatibility zcatFailEnv =
      Except.error "Failed to decompress kernel config" ∧
    (check_kernel_compatibility modulesFailEnv).isOk = false ∧
    check_kernel_compatibility modulesFailEnv =
      Except.error "Failed to read /proc/modules" :=
  ⟨rfl, rfl, rfl, rfl⟩

/-- Claim C3, amended: a missing optional config file is absorbed (when
no candidate config source exists, `check_kernel_config` returns Ok with
a single Warning result), and a decompressor that runs but exits non-zero
merely falls through to the next candidate path; but two auxiliary-data
errors are propagated as fatal: a spawn failure of the external
decompressor while /proc/config.gz exists makes
`check_kernel_compatibility` return Err, and an unreadable /proc/modules
makes `check_kernel_modules` — and with it `check_kernel_compatibility`
— return Err. -/
theorem kernel_aux_error_handling (env : KernelEnv) :
    ((∀ p ∈ config_paths env, env.pathExists p = false) →
      check_kernel_config env =
        Except.ok [{ name := "Kernel Config"
                     status := CheckStatus.Warning
                     message := "Unable to find kernel configuration file"
                     details := some ("Cannot verify XDP-related kernel "
                       ++ "options. They might still be enabled.") }]) ∧
    (∀ out, env.zcat "/proc/config.gz" = some out → out.success = false →
      env.pathExists ("/boot/config-" ++ env.release) = false →
      env.pathExists "/proc/config.gz" = true →
      findKernelConfig env (config_paths env) =
        findKernelConfig env ["/boot/config"]) ∧
    (env.pathExists ("/boot/config-" ++ env.release) = false →
      env.pathExists "/proc/config.gz" = true →
      env.zcat "/proc/config.gz" = none →
      check_kernel_compatibility env =
        Except.error "Failed to decompress kernel config") ∧
    (env.read_to_string "/proc/modules" = none →
      check_kernel_modules env =
        Except.error "Failed to read /proc/modules" ∧
      ∃ e, check_kernel_compatibility env = Except.error e) := by
  have hgz : strEndsWith "/proc/config.gz" ".gz" = true := by decide
  refine ⟨?_, ?_, ?_, ?_⟩
  · intro h
    have h1 := h ("/boot/config-" ++ env.release) (by simp [config_paths])
    have h2 := h "/proc/config.gz" (by simp [config_paths])
    have h3 := h "/boot/config" (by simp [config_paths])
    rw [check_kernel_config, config_paths]
    rw [findKernelConfig, if_neg (by simp [h1])]
    rw [findKernelConfig, if_neg (by simp [h2])]
    rw [findKernelConfig, if_neg (by simp [h3])]
    rfl
  · intro out hz hsucc h1 h2
    rw [config_paths]
    rw [findKernelConfig, if_neg (by simp [h1])]
    rw [findKernelConfig, if_pos (by simp [h2]), if_pos (by simp [hgz])]
    simp [hz, hsucc]
  · intro h1 h2 hz
    have hcfg : check_kernel_config env =
        Except.error "Failed to decompress kernel config" := by
      rw [check_kernel_config, config_paths]
      rw [findKernelConfig, if_neg (by simp [h1])]
      rw [findKernelConfig, if_pos (by simp [h2]), if_pos (by simp [hgz]), hz]
    rw [check_kernel_compatibility, hcfg]
  · intro h
    have hmods : check_kernel_modules env =
        Except.error "Failed to read /proc/modules" := by
      rw [check_kernel_modules, h]
    refine ⟨hmods, ?_⟩
    rw [check_kernel_compatibility]
    rcases hcfg : check_kernel_config env with e | cfg
    · exact ⟨e, rfl⟩
    · rw [hmods]
      exact ⟨"Failed to read /proc/modules", rfl⟩

/-- A host exposing none of the kernel-config candidates and with an
unreadable /proc/modules. -/
def bareEnv : KernelEnv :=
  { release := "6.11.0-1-generic"
    pathExists := fun _ => false
    read_to_string := fun _ => none
    zcat := fun _ => none }

/-- A host where /proc/config.gz exists but zcat runs and exits non-zero,
while the plaintext /boot/config candidate is readable. -/
def zcatNonZeroEnv : KernelEnv :=
  { release := "5.15.0-89-generic"
    pathExists := fun p => p == "/proc/config.gz" || p == "/boot/config"
    read_to_string := fun p =>
      if p == "/boot/config" then some "CONFIG_BPF=y" else none
    zcat := fun _ => some { success := false, stdout := "" } }

/-- Witness for the amended C3 theorem: the bare host gets the absorbed
Warning result; on the non-zero-exit host the discovery loop falls
through to /boot/config and succeeds there; the spawn-failure host and
the bare host produce the two propagated errors. -/
theorem kernel_aux_error_handling_witness :
    check_kernel_config bareEnv =
      Except.ok [{ name := "Kernel Config"
                   status := CheckStatus.Warning
                   message := "Unable to find kernel configuration file"
                   details := some ("Cannot verify XDP-related kernel "
                     ++ "options. They might still be enabled.") }] ∧
    findKernelConfig zcatNonZeroEnv (config_paths zcatNonZeroEnv) =
      Except.ok (some ("CONFIG_BPF=y", "/boot/config")) ∧
    check_kernel_compatibility zcatFailEnv =
      Except.error "Failed to decompress kernel config" ∧
    check_kernel_modules bareEnv =
      Except.error "Failed to read /proc/modules" :=
  ⟨(kernel_aux_error_handling bareEnv).1 (fun _ _ => rfl),
   ((kernel_aux_error_handling zcatNonZeroEnv).2.1
      { success := false, stdout := "" } rfl rfl rfl rfl).trans rfl,
   (kernel_aux_error_handling zcatFailEnv).2.2.1 rfl rfl rfl,
   ((kernel_aux_error_handling bareEnv).2.2.2 rfl).1⟩

/-! Claim about rendering order. -/

/-- Building a report from one more call is one more `add_section`. -/
theorem buildReport_append (cs : List (String × List CheckResult))
    (c : String × List CheckResult) :
    buildReport (cs ++ [c]) = (buildReport cs).add_section c.1 c.2 := by
  simp [buildReport, List.foldl_append]

/-- The insertion order of a built report is the call names in order. -/
theorem order_buildReport (cs : List (String × List CheckResult)) :
    (buildReport cs).order = cs.map Prod.fst := by
  suffices h : ∀ r : Report,
      (List.foldl (fun r c => r.add_section c.1 c.2) r cs).order =
        r.order ++ cs.map Prod.fst by
    simpa [buildReport, Report.new] using h Report.new
  induction cs with
  | nil => simp
  | cons c cs ih =>
      intro r
      rw [List.foldl_cons, ih]
      simp [Report.add_section]

/-- Every name that was ever added has an entry in the section map. -/
theorem lookup_buildReport_isSome (cs : List (String × List CheckResult))
    (n : String) (h : n ∈ cs.map Prod.fst) :
    (lookupSection n (buildReport cs).sections).isSome = true := by
  induction cs using List.reverseRecOn with
  | nil => simp at h
  | append_singleton cs c ih =>
      rw [buildReport_append, Report.add_section]
      simp only [lookup_insertSection]
      by_cases hc : c.1 = n
      · rw [if_pos hc]; rfl
      · rw [if_neg hc]
        apply ih
        rw [List.map_append] at h
        rcases List.mem_append.mp h with h1 | h2
        · exact h1
        · simp only [List.map_cons, List.map_nil, List.mem_singleton] at h2
          exact absurd h2.symm hc

/-- `filterMap` only depends on the values of its function on the list. -/
theorem filterMap_eq_on {α β : Type} (f g : α → Option β) (l : List α)
    (h : ∀ x ∈ l, f x = g x) : l.filterMap f = l.filterMap g := by
  induction l with
  | nil => rfl
  | cons a l ih =>
      rw [List.filterMap_cons, List.filterMap_cons, h a (by simp),
        ih fun x hx => h x (by simp [hx])]

/-- With pairwise distinct names, the `print_human` loop visits exactly
the `add_section` calls: each name with the results given for it. -/
theorem humanSections_buildReport (cs : List (String × List CheckResult))
    (hnd : (cs.map Prod.fst).Nodup) :
    humanSections (buildReport cs) = cs := by
  induction cs using List.reverseRecOn with
  | nil => rfl
  | append_singleton cs c ih =>
      have hsplit :=
        List.nodup_append.mp (show (cs.map Prod.fst ++ [c.1]).Nodup by
          simpa using hnd)
      have hnd' : (cs.map Prod.fst).Nodup := hsplit.1
      have hnotin : c.1 ∉ cs.map Prod.fst :=
        fun hmem => hsplit.2.2 hmem (by simp)
      rw [humanSections, order_buildReport, List.map_append]
      simp only [List.map_cons, List.map_nil, List.filterMap_append]
      have hlast : lookupSection c.1 (buildReport (cs ++ [c])).sections =
          some c.2 := by
        rw [buildReport_append, Report.add_section, lookup_insertSection,
          if_pos rfl]
      have hpre : ∀ n ∈ cs.map Prod.fst,
          lookupSection n (buildReport (cs ++ [c])).sections =
            lookupSection n (buildReport cs).sections := by
        intro n hn
        rw [buildReport_append, Report.add_section, lookup_insertSection,
          if_neg (fun hcn => hnotin (by rw [hcn]; exact hn))]
      calc (cs.map Prod.fst).filterMap
            (fun n => (lookupSection n (buildReport (cs ++ [c])).sections).map
              fun results => (n, results))
          ++ [c.1].filterMap
            (fun n => (lookupSection n (buildReport (cs ++ [c])).sections).map
              fun results => (n, results))
          = humanSections (buildReport cs) ++ [(c.1, c.2)] := by
            rw [filterMap_eq_on _
              (fun n => (lookupSection n (buildReport cs).sections).map
                fun results => (n, results)) _
              (fun n hn => by rw [hpre n hn])]
            rw [humanSections, order_buildReport]
            simp [hlast]
        _ = cs ++ [c] := by rw [ih hnd']

/-- Claim C6: for every report built by `add_section` calls and every
verbosity flag, `print_human` visits the sections in exactly the call
order (a call with zero results still occupies its position), each
visited section showing exactly the stored result list in stored order;
with pairwise distinct names the printed lines are precisely the calls
rendered one after the other, followed by the summary block. -/
theorem print_human_order (calls : List (String × List CheckResult))
    (verbose : Bool) :
    (humanSections (buildReport calls)).map Prod.fst = calls.map Prod.fst ∧
    (∀ p ∈ humanSections (buildReport calls),
      lookupSection p.1 (buildReport calls).sections = some p.2) ∧
    ((calls.map Prod.fst).Nodup →
      (buildReport calls).print_human verbose =
        calls.flatMap (sectionLines verbose)
          ++ summaryLines (reportHasFailures (buildReport calls))
               (reportHasWarnings (buildReport calls)) verbose) := by
  refine ⟨?_, ?_, ?_⟩
  · rw [humanSections, order_buildReport]
    have : ∀ l : List String, (∀ n ∈ l,
        (lookupSection n (buildReport calls).sections).isSome = true) →
        (l.filterMap (fun n =>
          (lookupSection n (buildReport calls).sections).map
            fun results => (n, results))).map Prod.fst = l := by
      intro l
      induction l with
      | nil => intro _; rfl
      | cons a l ih =>
          intro h
          obtain ⟨v, hv⟩ := Option.isSome_iff_exists.mp (h a (by simp))
          rw [List.filterMap_cons]
          simp only [hv, Option.map_some']
          rw [List.map_cons, ih fun x hx => h x (by simp [hx])]
    exact this (calls.map Prod.fst)
      (fun n hn => lookup_buildReport_isSome calls n hn)
  · intro p hp
    rw [humanSections] at hp
    obtain ⟨n, _, hn⟩ := List.mem_filterMap.mp hp
    obtain ⟨v, hv, hnv⟩ := Option.map_eq_some'.mp hn
    cases hnv
    exact hv
  · intro hnd
    rw [Report.print_human, humanSections_buildReport calls hnd]

/-- The demonstration call sequence of the spec: three sections, the
middle one added with zero results. -/
def demoCalls : List (String × List CheckResult) :=
  [("Kernel", [demoWarn]), ("Capabilities", []), ("NIC", [demoPass])]

/-- Witness for C6 on the demonstration call sequence. -/
theorem print_human_order_witness :
    lookupSection "Kernel" (buildReport demoCalls).sections =
      some [demoWarn] ∧
    (buildReport demoCalls).print_human false =
      demoCalls.flatMap (sectionLines false)
        ++ summaryLines (reportHasFailures (buildReport demoCalls))
             (reportHasWarnings (buildReport demoCalls)) false :=
  ⟨(print_human_order demoCalls false).2.1 ("Kernel", [demoWarn]) (by decide),
   (print_human_order demoCalls false).2.2 (by decide)⟩

end XdpCheck
